import Mathlib

/-!
Shallow embedding of the Pexip whiteboard plugin (src/src/index.ts).

The module-level mutable variables of the plugin (whiteboardState, canvas,
ctx, isDrawing, currentStroke, currentUserId, currentUserName, currentColor,
currentWidth, isEraser, isWhiteBackground, isPresentationMode) are gathered
into one `PluginState` record; DOM handles `canvas` and `ctx` are modelled by
booleans recording whether they are non-null, together with `ctxLineWidth`
for the `ctx.lineWidth` property read by `startDrawing`.  Outbound
`sendApplicationMessage` calls are modelled by returning a list of
`OutMessage` values; canvas drawing calls are modelled by lists of `CanvasOp`
values, with every unguarded array access (`points[0]`,
`points[points.length - 1]`) going through `List.get?` so that a would-be
runtime crash shows up as `none`.
-/

namespace Whiteboard

/-- Mirrors the `DrawingPoint` interface: `{x, y, pressure?}`. -/
structure DrawingPoint where
  x : Int
  y : Int
  pressure : Option Int := none
deriving DecidableEq

/-- Mirrors the `DrawingStroke` interface. -/
structure DrawingStroke where
  points : List DrawingPoint
  color : String
  width : Int
  timestamp : Int
  userId : String
  userName : String
deriving DecidableEq

/-- The module-level mutable state of the plugin, flattened.  `strokes` and
`isActive` are the fields of `whiteboardState`; `canvas` and `ctx` record
whether those globals are non-null; `overlayAttached` records whether the
`whiteboard-container` element is attached to the host DOM. -/
structure PluginState where
  strokes : List DrawingStroke
  isActive : Bool
  canvas : Bool
  ctx : Bool
  overlayAttached : Bool
  isDrawing : Bool
  currentStroke : Option DrawingStroke
  currentUserId : String
  currentUserName : String
  currentColor : String
  currentWidth : Int
  ctxLineWidth : Int
  isEraser : Bool
  isWhiteBackground : Bool
  isPresentationMode : Bool
deriving DecidableEq

/-- Host environment facts consulted by `createWhiteboardOverlay`:
whether some video-wrapper selector matches (`rootFound`) and whether
`canvas.getContext` returns a non-null drawing surface
(`contextAvailable`). -/
structure Environment where
  rootFound : Bool
  contextAvailable : Bool
deriving DecidableEq

/-- Outbound application messages, one constructor per payload `type`
actually sent by the plugin. -/
inductive OutMessage where
  | openMsg (userId userName : String)
  | closeMsg (userId : String)
  | drawMsg (userId userName : String) (stroke : DrawingStroke)
  | clearMsg (userId : String)
  | undoMsg (userId : String)
deriving DecidableEq

/-- Payload `type` tags of inbound application messages; `other` covers
every unrecognized tag (ignored by the switch). -/
inductive PayloadType where
  | wbOpen
  | wbClose
  | wbDraw
  | wbClear
  | wbUndo
  | other
deriving DecidableEq

/-- Inbound payload `{type, userId?, userName?, stroke?}`. -/
structure Payload where
  ptype : PayloadType
  userId : Option String := none
  userName : Option String := none
  stroke : Option DrawingStroke := none
deriving DecidableEq

/-- The envelope handed to the `applicationMessage` handler; optional
string fields model possibly-undefined properties. -/
structure AppMessage where
  participantId : Option String := none
  userId : Option String := none
  displayName : Option String := none
  message : Payload
deriving DecidableEq

/-- JavaScript `a || b` on an optional string: `none` and the empty string
are falsy and fall through to the default. -/
def jsOr (o : Option String) (d : String) : String :=
  match o with
  | some s => if s = "" then d else s
  | none => d

/-- JavaScript truthiness of a possibly-undefined string. -/
def isTruthy (o : Option String) : Bool :=
  match o with
  | some s => s != ""
  | none => false

/-- Eraser color in whiteboard mode, from the `startDrawing` ternary. -/
def eraserColor (st : PluginState) : String :=
  if st.isWhiteBackground then "#ffffff" else "#000000"

/-- Embeds `createWhiteboardOverlay`.  Returns the state as mutated up to
the point of a possible throw, with `true` when the overlay was attached:
when no root container is found the function throws before touching any
global; when `getContext` fails it has already installed the fresh canvas
element in the `canvas` global but throws before appending anything to the
DOM; on success it attaches the overlay and sets the context line width
per the eraser flag. -/
def createWhiteboardOverlay (env : Environment) (st : PluginState) :
    PluginState × Bool :=
  if ¬ env.rootFound then (st, false)
  else if ¬ env.contextAvailable then
    ({ st with canvas := true, ctx := false }, false)
  else
    ({ st with canvas := true, ctx := true,
               ctxLineWidth := if st.isEraser then 10 else st.currentWidth,
               overlayAttached := true }, true)

/-- Embeds `openWhiteboard`: the `whiteboard-open` broadcast is awaited
first, then `whiteboardState.isActive` is set, then the overlay is created;
a throw from `createWhiteboardOverlay` is caught and only logged, so the
earlier mutations survive. -/
def openWhiteboard (env : Environment) (st : PluginState) :
    PluginState × List OutMessage :=
  ((createWhiteboardOverlay env { st with isActive := true }).1,
   [OutMessage.openMsg st.currentUserId st.currentUserName])

/-- Embeds `removeWhiteboardOverlay`: detaches the container and nulls the
canvas, context, drawing flag and in-progress stroke. -/
def removeWhiteboardOverlay (st : PluginState) : PluginState :=
  { st with overlayAttached := false, canvas := false, ctx := false,
            isDrawing := false, currentStroke := none }

/-- Embeds `closeWhiteboard`. -/
def closeWhiteboard (st : PluginState) : PluginState × List OutMessage :=
  (removeWhiteboardOverlay { st with isActive := false },
   [OutMessage.closeMsg st.currentUserId])

/-- Embeds `startDrawing` at canvas-local coordinates `(x, y)` with
`Date.now() = now`.  Note the source guards only on `canvas` and `ctx`:
there is no `isDrawing` check, so an in-progress stroke is overwritten. -/
def startDrawing (st : PluginState) (x y now : Int) : PluginState :=
  if st.canvas ∧ st.ctx then
    { st with isDrawing := true,
              currentStroke := some
                { points := [{ x := x, y := y }],
                  color := if st.isEraser then
                             (if st.isPresentationMode then "#000000"
                              else eraserColor st)
                           else st.currentColor,
                  width := st.ctxLineWidth,
                  timestamp := now,
                  userId := st.currentUserId,
                  userName := st.currentUserName } }
  else st

/-- Embeds `draw` (the mousemove handler): appends the point to the
in-progress stroke and broadcasts the whole cumulative stroke. -/
def draw (st : PluginState) (x y : Int) : PluginState × List OutMessage :=
  match st.currentStroke with
  | some cs =>
    if st.isDrawing ∧ st.canvas ∧ st.ctx then
      let cs2 := { cs with points := cs.points ++ [{ x := x, y := y }] }
      ({ st with currentStroke := some cs2 },
       [OutMessage.drawMsg st.currentUserId st.currentUserName cs2])
    else (st, [])
  | none => (st, [])

/-- Embeds `stopDrawing`: commits the in-progress stroke to
`whiteboardState.strokes` and clears the in-progress slot. -/
def stopDrawing (st : PluginState) : PluginState :=
  match st.currentStroke with
  | some cs =>
    if st.isDrawing then
      { st with isDrawing := false,
                strokes := st.strokes ++ [cs],
                currentStroke := none }
    else st
  | none => st

/-- Embeds `clearCanvas`: empties the committed list and broadcasts
`whiteboard-clear`; guarded on canvas and context being present. -/
def clearCanvas (st : PluginState) : PluginState × List OutMessage :=
  if st.canvas ∧ st.ctx then
    ({ st with strokes := [] }, [OutMessage.clearMsg st.currentUserId])
  else (st, [])

/-- Embeds `undoLastStroke`: pops the last committed stroke, redraws, and
broadcasts `whiteboard-undo`; a no-op when the canvas or context is null
or the committed list is empty. -/
def undoLastStroke (st : PluginState) : PluginState × List OutMessage :=
  if st.canvas ∧ st.ctx ∧ st.strokes ≠ [] then
    ({ st with strokes := st.strokes.dropLast },
     [OutMessage.undoMsg st.currentUserId])
  else (st, [])

/-- The user id the handler attributes an inbound message to:
`participantId || userId || "unknown"` on the envelope. -/
def msgUid (m : AppMessage) : String :=
  jsOr m.participantId (jsOr m.userId "unknown")

/-- The display name the handler attributes an inbound message to:
`displayName || message.userName || "Unknown User"`. -/
def msgUname (m : AppMessage) : String :=
  jsOr m.displayName (jsOr m.message.userName "Unknown User")

/-- The pre-switch step of the handler: when the message is the local
participant and carries a truthy display name, the stored user name is
refreshed. -/
def updateOwnName (st : PluginState) (m : AppMessage) : PluginState :=
  if msgUid m = st.currentUserId ∧ isTruthy m.displayName then
    { st with currentUserName := m.displayName.getD st.currentUserName }
  else st

/-- The `whiteboard-draw` case patches a falsy `stroke.userName` with the
envelope-derived name before appending. -/
def patchUserName (uname : String) (s : DrawingStroke) : DrawingStroke :=
  if s.userName = "" then { s with userName := uname } else s

/-- The switch of the `applicationMessage` handler, after the own-name
update, given the derived `uid` and `uname`.  A missing stroke on a
`whiteboard-draw` payload throws on the `stroke.userName` access before
the push; the throw is caught, leaving the state unchanged. -/
def dispatchMessage (env : Environment) (st : PluginState)
    (uid uname : String) (p : Payload) : PluginState :=
  match p.ptype with
  | PayloadType.wbOpen =>
    if uid ≠ st.currentUserId then
      (createWhiteboardOverlay env { st with isActive := true }).1
    else st
  | PayloadType.wbClose =>
    if uid ≠ st.currentUserId then
      removeWhiteboardOverlay { st with isActive := false }
    else st
  | PayloadType.wbDraw =>
    if uid ≠ st.currentUserId ∧ st.canvas ∧ st.ctx then
      match p.stroke with
      | some s => { st with strokes := st.strokes ++ [patchUserName uname s] }
      | none => st
    else st
  | PayloadType.wbClear =>
    if uid ≠ st.currentUserId then { st with strokes := [] } else st
  | PayloadType.wbUndo =>
    if uid ≠ st.currentUserId then
      { st with strokes := st.strokes.dropLast }
    else st
  | PayloadType.other => st

/-- Embeds the whole `applicationMessage` handler. -/
def handleMessage (env : Environment) (st : PluginState) (m : AppMessage) :
    PluginState :=
  dispatchMessage env (updateOwnName st m) (msgUid m) (msgUname m) m.message

/-- One primitive 2D-context operation issued by a render path. -/
inductive CanvasOp where
  | clearRect
  | fillRect (color : String)
  | beginPath
  | moveTo (x y : Int)
  | lineTo (x y : Int)
  | strokePath (color : String) (width : Int)
  | label (x y : Int) (text color : String)
deriving DecidableEq

/-- Embeds `drawUserName`: a no-op when the context is null, otherwise a
text label offset from the stroke end. -/
def drawUserNameOps (ctxPresent : Bool) (x y : Int) (userName strokeColor : String) :
    List CanvasOp :=
  if ctxPresent then [CanvasOp.label (x + 5) (y - 5) userName strokeColor]
  else []

/-- The path-drawing body shared by `redrawCanvas` and `copyToClipboard`
for one stroke: `moveTo(points[0])`, `lineTo` for each later point, then
`stroke()`.  The unguarded `points[0]` access is `List.get?`, so a caller
that reached this with an empty list would observe `none` (a crash). -/
def strokeBodyOps (s : DrawingStroke) : Option (List CanvasOp) :=
  match s.points.get? 0 with
  | none => none
  | some p0 =>
      some (CanvasOp.beginPath :: CanvasOp.moveTo p0.x p0.y ::
            ((s.points.drop 1).map (fun p => CanvasOp.lineTo p.x p.y) ++
             [CanvasOp.strokePath s.color s.width]))

/-- The name-label block shared by `redrawCanvas` and the inbound draw
case: guarded on a non-empty point list, reads `points[points.length - 1]`,
and labels only the most recent stroke or one older than two seconds. -/
def strokeLabelOps (now : Int) (ctxPresent : Bool) (isLast : Bool)
    (s : DrawingStroke) : Option (List CanvasOp) :=
  if s.points.length > 0 then
    match s.points.get? (s.points.length - 1) with
    | none => none
    | some lastPoint =>
        if now - s.timestamp > 2000 ∨ isLast then
          some (drawUserNameOps ctxPresent lastPoint.x lastPoint.y
                  s.userName s.color)
        else some []
  else some []

/-- One iteration of the `redrawCanvas` stroke loop: empty-point strokes
are skipped by the `continue`, otherwise path body plus label block. -/
def strokeFullOps (now : Int) (ctxPresent : Bool) (isLast : Bool)
    (s : DrawingStroke) : Option (List CanvasOp) :=
  if s.points.length = 0 then some []
  else
    match strokeBodyOps s, strokeLabelOps now ctxPresent isLast s with
    | some body, some lbl => some (body ++ lbl)
    | _, _ => none

/-- The `redrawCanvas` loop over the committed list; the reference
comparison with `strokes[strokes.length - 1]` is modelled positionally as
the last list entry. -/
def strokesFullOps (now : Int) (ctxPresent : Bool) :
    List DrawingStroke → Option (List CanvasOp)
  | [] => some []
  | [s] => strokeFullOps now ctxPresent true s
  | s :: t :: rest =>
      match strokeFullOps now ctxPresent false s,
            strokesFullOps now ctxPresent (t :: rest) with
      | some a, some b => some (a ++ b)
      | _, _ => none

/-- The background fill or clear performed at the top of `redrawCanvas`
(also the `clearCanvas` and inbound-clear background logic). -/
def backgroundClearOps (st : PluginState) : List CanvasOp :=
  if st.isPresentationMode then [CanvasOp.clearRect]
  else if st.isWhiteBackground then [CanvasOp.fillRect "#ffffff"]
  else [CanvasOp.clearRect]

/-- Embeds `redrawCanvas` (the full replay): a no-op when canvas or
context is null, otherwise background then every committed stroke in list
order. -/
def redrawCanvasOps (now : Int) (st : PluginState) : Option (List CanvasOp) :=
  if st.canvas ∧ st.ctx then
    match strokesFullOps now st.ctx st.strokes with
    | some body => some (backgroundClearOps st ++ body)
    | none => none
  else some []

/-- One iteration of the export loop in `copyToClipboard`: like the full
replay but on the offscreen surface and without name labels. -/
def exportStrokeOps (s : DrawingStroke) : Option (List CanvasOp) :=
  if s.points.length = 0 then some []
  else strokeBodyOps s

/-- The export loop over the committed list. -/
def strokesExportOps : List DrawingStroke → Option (List CanvasOp)
  | [] => some []
  | s :: rest =>
      match exportStrokeOps s, strokesExportOps rest with
      | some a, some b => some (a ++ b)
      | _, _ => none

/-- Embeds the drawing part of `copyToClipboard`: a no-op when the live
canvas or the offscreen context is unavailable, otherwise background fill
(white mode only) then every committed stroke; never touches the
committed list and sends nothing. -/
def exportOps (tempCtxAvailable : Bool) (st : PluginState) :
    Option (List CanvasOp) :=
  if st.canvas ∧ tempCtxAvailable then
    match strokesExportOps st.strokes with
    | some body =>
        some ((if st.isWhiteBackground then [CanvasOp.fillRect "#ffffff"]
               else []) ++ body)
    | none => none
  else some []

/-- Embeds the incremental render of an inbound `whiteboard-draw` stroke:
`beginPath`, a guarded `moveTo`/`lineTo` walk, `stroke()`, then the label
block; the just-pushed stroke is always the last list entry, so the
label condition runs with `isLast = true`. -/
def incrementalDrawOps (now : Int) (s : DrawingStroke) :
    Option (List CanvasOp) :=
  match (if s.points.length > 0 then
           match s.points.get? 0 with
           | none => none
           | some p0 =>
               some (CanvasOp.beginPath :: CanvasOp.moveTo p0.x p0.y ::
                     ((s.points.drop 1).map
                        (fun p => CanvasOp.lineTo p.x p.y) ++
                      [CanvasOp.strokePath s.color s.width]))
         else some [CanvasOp.beginPath, CanvasOp.strokePath s.color s.width]),
        strokeLabelOps now true true s with
  | some path, some lbl => some (path ++ lbl)
  | _, _ => none

/-- One local pointer gesture event: pointer-down, pointer-move, or
pointer-up, as dispatched to `startDrawing`, `draw` and `stopDrawing`. -/
inductive GestureEvent where
  | begin (x y now : Int)
  | extend (x y : Int)
  | finish
deriving DecidableEq

/-- Runs a sequence of gesture events, collecting the outbound messages:
only the extend path (`draw`) ever sends. -/
def runGesture : PluginState → List GestureEvent → PluginState × List OutMessage
  | st, [] => (st, [])
  | st, GestureEvent.begin x y now :: rest =>
      runGesture (startDrawing st x y now) rest
  | st, GestureEvent.extend x y :: rest =>
      let p := draw st x y
      let q := runGesture p.1 rest
      (q.1, p.2 ++ q.2)
  | st, GestureEvent.finish :: rest => runGesture (stopDrawing st) rest

/-! Concrete states used by counterexamples and witnesses. -/

/-- A plugin state with the overlay open, an empty committed list, and
default tool settings, as after a successful local open. -/
def demoState : PluginState :=
  { strokes := [], isActive := true, canvas := true, ctx := true,
    overlayAttached := true, isDrawing := false, currentStroke := none,
    currentUserId := "user-1700000000000", currentUserName := "User 42",
    currentColor := "#000000", currentWidth := 3, ctxLineWidth := 3,
    isEraser := false, isWhiteBackground := true, isPresentationMode := false }

/-- The initial state before any open: inactive, no overlay. -/
def closedState : PluginState :=
  { demoState with isActive := false, canvas := false, ctx := false,
                   overlayAttached := false }

/-- A committed one-point stroke by a remote author. -/
def sampleStrokeA : DrawingStroke :=
  { points := [⟨1, 2, none⟩], color := "#ff0000", width := 3,
    timestamp := 500, userId := "user-x", userName := "Alice" }

/-- A committed two-point stroke by another author. -/
def sampleStrokeB : DrawingStroke :=
  { points := [⟨3, 4, none⟩, ⟨5, 6, none⟩], color := "#00ff00", width := 3,
    timestamp := 600, userId := "user-y", userName := "Bob" }

/-! Helper lemmas. -/

/-- Projections of `updateOwnName`: only `currentUserName` can change. -/
theorem updateOwnName_fields (st : PluginState) (m : AppMessage) :
    (updateOwnName st m).strokes = st.strokes ∧
    (updateOwnName st m).isActive = st.isActive ∧
    (updateOwnName st m).currentStroke = st.currentStroke ∧
    (updateOwnName st m).currentUserId = st.currentUserId ∧
    (updateOwnName st m).canvas = st.canvas ∧
    (updateOwnName st m).ctx = st.ctx ∧
    (updateOwnName st m).isDrawing = st.isDrawing := by
  unfold updateOwnName
  split <;> simp

/-- The stroke path body succeeds on every non-empty point list. -/
theorem strokeBodyOps_isSome (s : DrawingStroke) (h : s.points ≠ []) :
    (strokeBodyOps s).isSome := by
  unfold strokeBodyOps
  cases hp : s.points with
  | nil => exact absurd hp h
  | cons p rest => simp [hp]

/-- Reading the final point of a non-empty list succeeds. -/
theorem getLast_get?_isSome (l : List DrawingPoint) (h : 0 < l.length) :
    (l.get? (l.length - 1)).isSome := by
  cases hg : l.get? (l.length - 1) with
  | none =>
      have := List.get?_eq_none.mp hg
      omega
  | some p => rfl

/-- The name-label block succeeds on every stroke: the only array read is
behind a matching non-emptiness guard. -/
theorem strokeLabelOps_isSome (now : Int) (c isLast : Bool)
    (s : DrawingStroke) : (strokeLabelOps now c isLast s).isSome := by
  unfold strokeLabelOps
  by_cases h : s.points.length > 0
  · have hs := getLast_get?_isSome s.points h
    rw [if_pos h]
    cases hg : s.points.get? (s.points.length - 1) with
    | none => rw [hg] at hs; exact absurd hs (by simp)
    | some p =>
        split
        · simp_all
        · split <;> rfl
  · rw [if_neg h]
    rfl

/-- One full-replay loop iteration succeeds on every stroke, including the
degenerate one-point stroke and the skipped empty stroke. -/
theorem strokeFullOps_isSome (now : Int) (c b : Bool) (s : DrawingStroke) :
    (strokeFullOps now c b s).isSome := by
  unfold strokeFullOps
  by_cases h : s.points.length = 0
  · rw [if_pos h]; rfl
  · rw [if_neg h]
    have h1 := strokeBodyOps_isSome s (by
      intro hn
      exact h (by rw [hn]; rfl))
    have h2 := strokeLabelOps_isSome now c b s
    rcases Option.isSome_iff_exists.mp h1 with ⟨a, ha⟩
    rcases Option.isSome_iff_exists.mp h2 with ⟨l, hl⟩
    rw [ha, hl]
    rfl

/-- The full-replay loop succeeds on every committed list. -/
theorem strokesFullOps_isSome (now : Int) (c : Bool) :
    (l : List DrawingStroke) → (strokesFullOps now c l).isSome
  | [] => by rw [strokesFullOps]; rfl
  | [s] => by rw [strokesFullOps]; exact strokeFullOps_isSome now c true s
  | s :: t :: rest => by
      have ih := strokesFullOps_isSome now c (t :: rest)
      have h1 := strokeFullOps_isSome now c false s
      rw [strokesFullOps]
      rcases Option.isSome_iff_exists.mp h1 with ⟨a, ha⟩
      rcases Option.isSome_iff_exists.mp ih with ⟨b, hb⟩
      rw [ha, hb]
      rfl

/-- The full replay succeeds from every plugin state. -/
theorem redrawCanvasOps_isSome (now : Int) (st : PluginState) :
    (redrawCanvasOps now st).isSome := by
  unfold redrawCanvasOps
  split
  · rcases Option.isSome_iff_exists.mp
      (strokesFullOps_isSome now st.ctx st.strokes) with ⟨b, hb⟩
    rw [hb]
    rfl
  · rfl

/-- One export loop iteration succeeds on every stroke. -/
theorem exportStrokeOps_isSome (s : DrawingStroke) :
    (exportStrokeOps s).isSome := by
  unfold exportStrokeOps
  by_cases h : s.points.length = 0
  · rw [if_pos h]; rfl
  · rw [if_neg h]
    exact strokeBodyOps_isSome s (by
      intro hn
      exact h (by rw [hn]; rfl))

/-- The export loop succeeds on every committed list. -/
theorem strokesExportOps_isSome :
    (l : List DrawingStroke) → (strokesExportOps l).isSome
  | [] => by rw [strokesExportOps]; rfl
  | s :: rest => by
      have ih := strokesExportOps_isSome rest
      have h1 := exportStrokeOps_isSome s
      rw [strokesExportOps]
      rcases Option.isSome_iff_exists.mp h1 with ⟨a, ha⟩
      rcases Option.isSome_iff_exists.mp ih with ⟨b, hb⟩
      rw [ha, hb]
      rfl

/-- The export composition succeeds from every plugin state. -/
theorem exportOps_isSome (tempCtx : Bool) (st : PluginState) :
    (exportOps tempCtx st).isSome := by
  unfold exportOps
  split
  · rcases Option.isSome_iff_exists.mp
      (strokesExportOps_isSome st.strokes) with ⟨b, hb⟩
    rw [hb]
    rfl
  · rfl

/-- The incremental render of an inbound stroke succeeds on every stroke. -/
theorem incrementalDrawOps_isSome (now : Int) (s : DrawingStroke) :
    (incrementalDrawOps now s).isSome := by
  unfold incrementalDrawOps
  have h2 := strokeLabelOps_isSome now true true s
  rcases Option.isSome_iff_exists.mp h2 with ⟨l, hl⟩
  by_cases h : s.points.length > 0
  · rw [if_pos h]
    cases hg : s.points.get? 0 with
    | none =>
        cases hp : s.points with
        | nil => rw [hp] at h; simp at h
        | cons p rest => rw [hp] at hg; simp at hg
    | some p0 =>
        rw [hl]
        rfl
  · rw [if_neg h, hl]
    rfl

/-- Begin immediately followed by end commits exactly the fresh one-point
stroke built by `startDrawing`. -/
theorem startStop_commits (st : PluginState) (x y now : Int)
    (hc : st.canvas = true) (hx : st.ctx = true) :
    stopDrawing (startDrawing st x y now) =
      { st with isDrawing := false, currentStroke := none,
                strokes := st.strokes ++
                  [{ points := [{ x := x, y := y }],
                     color := if st.isEraser then
                                (if st.isPresentationMode then "#000000"
                                 else eraserColor st)
                              else st.currentColor,
                     width := st.ctxLineWidth, timestamp := now,
                     userId := st.currentUserId,
                     userName := st.currentUserName }] } := by
  unfold startDrawing stopDrawing
  simp [hc, hx]

/-- Under an open overlay, `undoLastStroke` maps the committed list to its
`dropLast`, leaving everything else unchanged. -/
theorem undoLastStroke_state (st : PluginState)
    (hc : st.canvas = true) (hx : st.ctx = true) :
    (undoLastStroke st).1 = { st with strokes := st.strokes.dropLast } := by
  unfold undoLastStroke
  by_cases hs : st.strokes = []
  · rw [if_neg (by simp [hs])]
    have hdl : st.strokes.dropLast = st.strokes := by rw [hs]; rfl
    rw [hdl]
  · rw [if_pos ⟨hc, hx, hs⟩]

/-- An inbound `whiteboard-draw` from a remote author with an open overlay
appends exactly the (name-patched) carried stroke. -/
theorem handleMessage_draw (env : Environment) (st : PluginState)
    (m : AppMessage) (s : DrawingStroke)
    (ht : m.message.ptype = PayloadType.wbDraw)
    (hs : m.message.stroke = some s)
    (hu : msgUid m ≠ st.currentUserId)
    (hc : st.canvas = true) (hx : st.ctx = true) :
    handleMessage env st m =
      { st with strokes := st.strokes ++ [patchUserName (msgUname m) s] } := by
  unfold handleMessage dispatchMessage updateOwnName
  simp [ht, hs, hu, hc, hx]

/-! Further concrete inputs for counterexamples and witnesses. -/

/-- A state in the middle of a drag gesture: begin at (10, 10) followed by
one extend to (20, 20). -/
def midGestureState : PluginState :=
  (draw (startDrawing demoState 10 10 1000) 20 20).1

/-- The committed list holding the two sample strokes. -/
def undoDemoState : PluginState :=
  { demoState with strokes := [sampleStrokeA, sampleStrokeB] }

/-- A remote `whiteboard-undo` envelope. -/
def undoRemoteMsg : AppMessage :=
  { participantId := some "user-remote",
    message := { ptype := PayloadType.wbUndo, userId := some "user-remote" } }

/-- A remote `whiteboard-clear` envelope. -/
def clearRemoteMsg : AppMessage :=
  { participantId := some "user-remote",
    message := { ptype := PayloadType.wbClear, userId := some "user-remote" } }

/-- A state with one committed stroke and a local gesture in progress. -/
def drawingState : PluginState :=
  { demoState with strokes := [sampleStrokeB], isDrawing := true,
                   currentStroke := some sampleStrokeA }

/-- A partial delivery of a remote gesture: first two points only. -/
def partialStroke : DrawingStroke :=
  { points := [⟨10, 10, none⟩, ⟨20, 20, none⟩], color := "#0000ff",
    width := 3, timestamp := 700, userId := "user-remote",
    userName := "Carol" }

/-- The full delivery of the same remote gesture: all three points. -/
def fullStroke : DrawingStroke :=
  { partialStroke with
      points := [⟨10, 10, none⟩, ⟨20, 20, none⟩, ⟨30, 10, none⟩] }

/-- The envelope carrying the partial delivery. -/
def drawRemoteMsg1 : AppMessage :=
  { participantId := some "user-remote",
    message := { ptype := PayloadType.wbDraw, userId := some "user-remote",
                 stroke := some partialStroke } }

/-- The envelope carrying the full delivery. -/
def drawRemoteMsg2 : AppMessage :=
  { participantId := some "user-remote",
    message := { ptype := PayloadType.wbDraw, userId := some "user-remote",
                 stroke := some fullStroke } }

/-- The begin/extend/extend/end scenario of the spec, run from the fresh
open state. -/
def clickDragRun : PluginState × List OutMessage :=
  runGesture demoState
    [GestureEvent.begin 10 10 1000, GestureEvent.extend 20 20,
     GestureEvent.extend 30 10, GestureEvent.finish]

/-! Claim theorems. -/

/-- C1 counterexample: with the video wrapper missing, `openWhiteboard`
still flips `isActive` from `false` to `true` and still emits the
`whiteboard-open` broadcast before the overlay failure is noticed, so the
failed open is not free of side effects as the claim states. -/
theorem c1_counterexample :
    closedState.isActive = false ∧
    (openWhiteboard ⟨false, true⟩ closedState).1.isActive = true ∧
    (openWhiteboard ⟨false, true⟩ closedState).2 =
      [OutMessage.openMsg "user-1700000000000" "User 42"] := by
  decide

/-- C1 (amended): when the container is missing or the drawing surface is
unobtainable, the failed open attaches no partial overlay and leaves the
committed strokes list unchanged, but the `whiteboard-open` broadcast has
already been sent and `isActive` has already been set to `true` by the
time the failure is swallowed. -/
theorem c1_open_failure (env : Environment) (st : PluginState)
    (h : env.rootFound = false ∨ env.contextAvailable = false) :
    (openWhiteboard env st).1.strokes = st.strokes ∧
    (openWhiteboard env st).1.overlayAttached = st.overlayAttached ∧
    (openWhiteboard env st).1.isActive = true ∧
    (openWhiteboard env st).2 =
      [OutMessage.openMsg st.currentUserId st.currentUserName] := by
  unfold openWhiteboard createWhiteboardOverlay
  rcases h with h | h
  · simp [h]
  · by_cases hr : env.rootFound <;> simp [h, hr]

/-- C1 witness: the amended statement at the concrete failing
environment. -/
theorem c1_open_failure_witness :
    ((⟨false, true⟩ : Environment).rootFound = false ∨
     (⟨false, true⟩ : Environment).contextAvailable = false) ∧
    ((openWhiteboard ⟨false, true⟩ closedState).1.strokes =
       closedState.strokes ∧
     (openWhiteboard ⟨false, true⟩ closedState).1.overlayAttached =
       closedState.overlayAttached ∧
     (openWhiteboard ⟨false, true⟩ closedState).1.isActive = true ∧
     (openWhiteboard ⟨false, true⟩ closedState).2 =
       [OutMessage.openMsg closedState.currentUserId
          closedState.currentUserName]) :=
  ⟨Or.inl rfl, c1_open_failure ⟨false, true⟩ closedState (Or.inl rfl)⟩

/-- C2: an inbound broadcast whose derived author id equals the local id
leaves the committed list, the active flag and the in-progress stroke
untouched, for every payload kind. -/
theorem c2_own_messages_ignored (env : Environment) (st : PluginState)
    (m : AppMessage) (h : msgUid m = st.currentUserId) :
    (handleMessage env st m).strokes = st.strokes ∧
    (handleMessage env st m).isActive = st.isActive ∧
    (handleMessage env st m).currentStroke = st.currentStroke := by
  obtain ⟨h1, h2, h3, h4, h5, h6, h7⟩ := updateOwnName_fields st m
  have he : msgUid m = (updateOwnName st m).currentUserId := by
    rw [h4]; exact h
  unfold handleMessage dispatchMessage
  cases hp : m.message.ptype <;> simp [hp, he, h1, h2, h3]

/-- C2 witness: an own-authored clear message leaves the state fields
unchanged. -/
theorem c2_own_messages_ignored_witness :
    msgUid { participantId := some "user-1700000000000",
             message := { ptype := PayloadType.wbClear,
                          userId := some "user-1700000000000" } } =
      undoDemoState.currentUserId ∧
    ((handleMessage ⟨true, true⟩ undoDemoState
        { participantId := some "user-1700000000000",
          message := { ptype := PayloadType.wbClear,
                       userId := some "user-1700000000000" } }).strokes =
       undoDemoState.strokes ∧
     (handleMessage ⟨true, true⟩ undoDemoState
        { participantId := some "user-1700000000000",
          message := { ptype := PayloadType.wbClear,
                       userId := some "user-1700000000000" } }).isActive =
       undoDemoState.isActive ∧
     (handleMessage ⟨true, true⟩ undoDemoState
        { participantId := some "user-1700000000000",
          message := { ptype := PayloadType.wbClear,
                       userId := some "user-1700000000000" } }).currentStroke =
       undoDemoState.currentStroke) :=
  ⟨by decide,
   c2_own_messages_ignored ⟨true, true⟩ undoDemoState
     { participantId := some "user-1700000000000",
       message := { ptype := PayloadType.wbClear,
                    userId := some "user-1700000000000" } } (by decide)⟩

/-- C3 counterexample: a second pointer-down during an in-progress gesture
is not dropped: `startDrawing` overwrites the in-progress two-point stroke
with a fresh single-point stroke. -/
theorem c3_counterexample :
    midGestureState.isDrawing = true ∧
    midGestureState.currentStroke.map DrawingStroke.points =
      some [⟨10, 10, none⟩, ⟨20, 20, none⟩] ∧
    (startDrawing midGestureState 30 30 2000).currentStroke.map
        DrawingStroke.points = some [⟨30, 30, none⟩] := by
  decide

/-- C3 (amended): a begin arriving while a gesture is already in progress
is not dropped; it installs a fresh single-point in-progress stroke,
discarding the existing one, and keeps the drawing flag set. -/
theorem c3_begin_overwrites (st : PluginState) (x y now : Int)
    (hc : st.canvas = true) (hx : st.ctx = true)
    (_hd : st.isDrawing = true) :
    (startDrawing st x y now).currentStroke = some
      { points := [{ x := x, y := y }],
        color := if st.isEraser then
                   (if st.isPresentationMode then "#000000"
                    else eraserColor st)
                 else st.currentColor,
        width := st.ctxLineWidth, timestamp := now,
        userId := st.currentUserId, userName := st.currentUserName } ∧
    (startDrawing st x y now).isDrawing = true := by
  unfold startDrawing
  rw [if_pos ⟨hc, hx⟩]
  exact ⟨rfl, rfl⟩

/-- C3 witness: the amended statement at the concrete mid-gesture
state. -/
theorem c3_begin_overwrites_witness :
    (midGestureState.canvas = true ∧ midGestureState.ctx = true ∧
     midGestureState.isDrawing = true) ∧
    ((startDrawing midGestureState 30 30 2000).currentStroke = some
       { points := [{ x := 30, y := 30 }],
         color := if midGestureState.isEraser then
                    (if midGestureState.isPresentationMode then "#000000"
                     else eraserColor midGestureState)
                  else midGestureState.currentColor,
         width := midGestureState.ctxLineWidth, timestamp := 2000,
         userId := midGestureState.currentUserId,
         userName := midGestureState.currentUserName } ∧
     (startDrawing midGestureState 30 30 2000).isDrawing = true) :=
  ⟨⟨by decide, by decide, by decide⟩,
   c3_begin_overwrites midGestureState 30 30 2000
     (by decide) (by decide) (by decide)⟩

/-- C4: one undo invocation maps the committed list to its `dropLast`:
it removes exactly the last element when the list is non-empty and is a
no-op on the empty list; the same holds for an inbound remote undo; and
the full replay after the local undo is exactly the replay of the
remaining list, so the removed stroke is never rendered. -/
theorem c4_undo_removes_last (env : Environment) (st : PluginState)
    (m : AppMessage) (now : Int)
    (hc : st.canvas = true) (hx : st.ctx = true)
    (ht : m.message.ptype = PayloadType.wbUndo)
    (hr : msgUid m ≠ st.currentUserId) :
    (undoLastStroke st).1 = { st with strokes := st.strokes.dropLast } ∧
    (st.strokes = [] → (undoLastStroke st).1 = st) ∧
    (∀ h2 : st.strokes ≠ [],
       (undoLastStroke st).1.strokes ++ [st.strokes.getLast h2] =
         st.strokes) ∧
    (handleMessage env st m).strokes = st.strokes.dropLast ∧
    redrawCanvasOps now (undoLastStroke st).1 =
      redrawCanvasOps now { st with strokes := st.strokes.dropLast } := by
  have hu := undoLastStroke_state st hc hx
  refine ⟨hu, ?_, ?_, ?_, by rw [hu]⟩
  · intro hs
    have hdl : st.strokes.dropLast = st.strokes := by rw [hs]; rfl
    rw [hu, hdl]
  · intro h2
    rw [hu]
    exact List.dropLast_append_getLast h2
  · unfold handleMessage dispatchMessage updateOwnName
    simp [ht, hr]

/-- C4 witness: undo at a state with two committed strokes and the
matching remote undo envelope. -/
theorem c4_undo_removes_last_witness :
    (undoDemoState.canvas = true ∧ undoDemoState.ctx = true ∧
     undoRemoteMsg.message.ptype = PayloadType.wbUndo ∧
     msgUid undoRemoteMsg ≠ undoDemoState.currentUserId) ∧
    ((undoLastStroke undoDemoState).1 =
       { undoDemoState with strokes := undoDemoState.strokes.dropLast } ∧
     (undoDemoState.strokes = [] →
        (undoLastStroke undoDemoState).1 = undoDemoState) ∧
     (∀ h2 : undoDemoState.strokes ≠ [],
        (undoLastStroke undoDemoState).1.strokes ++
            [undoDemoState.strokes.getLast h2] =
          undoDemoState.strokes) ∧
     (handleMessage ⟨true, true⟩ undoDemoState undoRemoteMsg).strokes =
       undoDemoState.strokes.dropLast ∧
     redrawCanvasOps 9999 (undoLastStroke undoDemoState).1 =
       redrawCanvasOps 9999
         { undoDemoState with strokes := undoDemoState.strokes.dropLast }) :=
  ⟨⟨rfl, rfl, rfl, by decide⟩,
   c4_undo_removes_last ⟨true, true⟩ undoDemoState undoRemoteMsg 9999
     rfl rfl rfl (by decide)⟩

/-- C5: the begin/extend/extend/end scenario commits exactly one stroke
with points (10,10), (20,20), (30,10) in order, and sends exactly two
draw broadcasts, one per extend, each carrying the cumulative point list
as of its send. -/
theorem c5_gesture_trace :
    clickDragRun.1.strokes.map DrawingStroke.points =
      [[⟨10, 10, none⟩, ⟨20, 20, none⟩, ⟨30, 10, none⟩]] ∧
    clickDragRun.2 =
      [OutMessage.drawMsg "user-1700000000000" "User 42"
         { points := [⟨10, 10, none⟩, ⟨20, 20, none⟩], color := "#000000",
           width := 3, timestamp := 1000, userId := "user-1700000000000",
           userName := "User 42" },
       OutMessage.drawMsg "user-1700000000000" "User 42"
         { points := [⟨10, 10, none⟩, ⟨20, 20, none⟩, ⟨30, 10, none⟩],
           color := "#000000", width := 3, timestamp := 1000,
           userId := "user-1700000000000", userName := "User 42" }] := by
  decide

/-- C6: two inbound draw deliveries for the same gesture are both
appended to the committed list: the second delivery does not replace or
deduplicate the first, and name patching never changes the points. -/
theorem c6_duplicate_draw_appends (env : Environment) (st : PluginState)
    (m1 m2 : AppMessage) (s1 s2 : DrawingStroke)
    (ht1 : m1.message.ptype = PayloadType.wbDraw)
    (hs1 : m1.message.stroke = some s1)
    (hu1 : msgUid m1 ≠ st.currentUserId)
    (ht2 : m2.message.ptype = PayloadType.wbDraw)
    (hs2 : m2.message.stroke = some s2)
    (hu2 : msgUid m2 ≠ st.currentUserId)
    (hc : st.canvas = true) (hx : st.ctx = true) :
    (handleMessage env (handleMessage env st m1) m2).strokes =
      st.strokes ++ [patchUserName (msgUname m1) s1,
                     patchUserName (msgUname m2) s2] ∧
    (patchUserName (msgUname m1) s1).points = s1.points ∧
    (patchUserName (msgUname m2) s2).points = s2.points := by
  rw [handleMessage_draw env st m1 s1 ht1 hs1 hu1 hc hx]
  rw [handleMessage_draw env
        { st with strokes := st.strokes ++ [patchUserName (msgUname m1) s1] }
        m2 s2 ht2 hs2 hu2 hc hx]
  refine ⟨by simp, ?_, ?_⟩ <;> (unfold patchUserName; split <;> rfl)

/-- C6 witness: partial-then-full delivery of the same remote gesture
yields two separate entries. -/
theorem c6_duplicate_draw_appends_witness :
    (drawRemoteMsg1.message.ptype = PayloadType.wbDraw ∧
     drawRemoteMsg1.message.stroke = some partialStroke ∧
     msgUid drawRemoteMsg1 ≠ demoState.currentUserId ∧
     drawRemoteMsg2.message.ptype = PayloadType.wbDraw ∧
     drawRemoteMsg2.message.stroke = some fullStroke ∧
     msgUid drawRemoteMsg2 ≠ demoState.currentUserId ∧
     demoState.canvas = true ∧ demoState.ctx = true) ∧
    ((handleMessage ⟨true, true⟩
        (handleMessage ⟨true, true⟩ demoState drawRemoteMsg1)
        drawRemoteMsg2).strokes =
       demoState.strokes ++
         [patchUserName (msgUname drawRemoteMsg1) partialStroke,
          patchUserName (msgUname drawRemoteMsg2) fullStroke] ∧
     (patchUserName (msgUname drawRemoteMsg1) partialStroke).points =
       partialStroke.points ∧
     (patchUserName (msgUname drawRemoteMsg2) fullStroke).points =
       fullStroke.points) :=
  ⟨⟨rfl, rfl, by decide, rfl, rfl, by decide, rfl, rfl⟩,
   c6_duplicate_draw_appends ⟨true, true⟩ demoState drawRemoteMsg1
     drawRemoteMsg2 partialStroke fullStroke rfl rfl (by decide) rfl rfl
     (by decide) rfl rfl⟩

/-- C7: a remote clear empties the committed list while leaving the local
in-progress stroke and drawing flag alone, and a following pointer-up
still commits the in-progress stroke. -/
theorem c7_remote_clear (env : Environment) (st : PluginState)
    (m : AppMessage)
    (ht : m.message.ptype = PayloadType.wbClear)
    (hu : msgUid m ≠ st.currentUserId) :
    (handleMessage env st m).strokes = [] ∧
    (handleMessage env st m).currentStroke = st.currentStroke ∧
    (handleMessage env st m).isDrawing = st.isDrawing ∧
    (∀ cs, st.currentStroke = some cs → st.isDrawing = true →
       (stopDrawing (handleMessage env st m)).strokes = [cs]) := by
  have hm : handleMessage env st m = { st with strokes := [] } := by
    unfold handleMessage dispatchMessage updateOwnName
    simp [ht, hu]
  rw [hm]
  refine ⟨rfl, rfl, rfl, ?_⟩
  intro cs hcs hd
  unfold stopDrawing
  simp [hcs, hd]

/-- C7 witness: a remote clear during a local gesture, then the gesture
ends and commits on the emptied list. -/
theorem c7_remote_clear_witness :
    (clearRemoteMsg.message.ptype = PayloadType.wbClear ∧
     msgUid clearRemoteMsg ≠ drawingState.currentUserId) ∧
    ((handleMessage ⟨true, true⟩ drawingState clearRemoteMsg).strokes = [] ∧
     (handleMessage ⟨true, true⟩ drawingState clearRemoteMsg).currentStroke =
       drawingState.currentStroke ∧
     (handleMessage ⟨true, true⟩ drawingState clearRemoteMsg).isDrawing =
       drawingState.isDrawing ∧
     (∀ cs, drawingState.currentStroke = some cs →
        drawingState.isDrawing = true →
        (stopDrawing
           (handleMessage ⟨true, true⟩ drawingState clearRemoteMsg)).strokes =
          [cs])) :=
  ⟨⟨rfl, by decide⟩,
   c7_remote_clear ⟨true, true⟩ drawingState clearRemoteMsg rfl (by decide)⟩

/-- C8: a click with no drag commits exactly one stroke with exactly one
point, and the full replay, the incremental render and the export
composition all process the resulting state without failing. -/
theorem c8_one_point_stroke (st : PluginState) (x y now now2 : Int)
    (tempCtx : Bool) (hc : st.canvas = true) (hx : st.ctx = true) :
    (∃ s, (stopDrawing (startDrawing st x y now)).strokes =
            st.strokes ++ [s] ∧
          s.points = [{ x := x, y := y }] ∧
          (incrementalDrawOps now2 s).isSome) ∧
    (redrawCanvasOps now2 (stopDrawing (startDrawing st x y now))).isSome ∧
    (exportOps tempCtx (stopDrawing (startDrawing st x y now))).isSome := by
  rw [startStop_commits st x y now hc hx]
  exact ⟨⟨_, rfl, rfl, incrementalDrawOps_isSome now2 _⟩,
         redrawCanvasOps_isSome now2 _, exportOps_isSome tempCtx _⟩

/-- C8 witness: the one-point gesture from the fresh open state. -/
theorem c8_one_point_stroke_witness :
    (demoState.canvas = true ∧ demoState.ctx = true) ∧
    ((∃ s, (stopDrawing (startDrawing demoState 10 10 1000)).strokes =
             demoState.strokes ++ [s] ∧
           s.points = [{ x := 10, y := 10 }] ∧
           (incrementalDrawOps 5000 s).isSome) ∧
     (redrawCanvasOps 5000
        (stopDrawing (startDrawing demoState 10 10 1000))).isSome ∧
     (exportOps true
        (stopDrawing (startDrawing demoState 10 10 1000))).isSome) :=
  ⟨⟨rfl, rfl⟩, c8_one_point_stroke demoState 10 10 1000 5000 true rfl rfl⟩

/-- C9: a begin/end gesture with zero extends produces zero outbound
messages (in particular no draw broadcast) while still committing the
one-point stroke locally. -/
theorem c9_no_broadcast_for_click (st : PluginState) (x y now : Int)
    (hc : st.canvas = true) (hx : st.ctx = true) :
    (runGesture st [GestureEvent.begin x y now, GestureEvent.finish]).2 =
      [] ∧
    (runGesture st
        [GestureEvent.begin x y now, GestureEvent.finish]).1.strokes =
      st.strokes ++
        [{ points := [{ x := x, y := y }],
           color := if st.isEraser then
                      (if st.isPresentationMode then "#000000"
                       else eraserColor st)
                    else st.currentColor,
           width := st.ctxLineWidth, timestamp := now,
           userId := st.currentUserId,
           userName := st.currentUserName }] := by
  have h : runGesture st [GestureEvent.begin x y now, GestureEvent.finish] =
      (stopDrawing (startDrawing st x y now), []) := by
    simp [runGesture]
  rw [h, startStop_commits st x y now hc hx]
  exact ⟨rfl, rfl⟩

/-- C9 witness: the click gesture from the fresh open state. -/
theorem c9_no_broadcast_for_click_witness :
    (demoState.canvas = true ∧ demoState.ctx = true) ∧
    ((runGesture demoState
        [GestureEvent.begin 10 10 1000, GestureEvent.finish]).2 = [] ∧
     (runGesture demoState
         [GestureEvent.begin 10 10 1000, GestureEvent.finish]).1.strokes =
       demoState.strokes ++
         [{ points := [{ x := 10, y := 10 }],
            color := if demoState.isEraser then
                       (if demoState.isPresentationMode then "#000000"
                        else eraserColor demoState)
                     else demoState.currentColor,
            width := demoState.ctxLineWidth, timestamp := 1000,
            userId := demoState.currentUserId,
            userName := demoState.currentUserName }]) :=
  ⟨⟨rfl, rfl⟩, c9_no_broadcast_for_click demoState 10 10 1000 rfl rfl⟩

/-- C10: a remote draw arriving while the overlay is not open (canvas or
context null) is dropped entirely: the plugin state is unchanged, hence
the full replay after the event equals the full replay before it. -/
theorem c10_draw_dropped_when_closed (env : Environment) (st : PluginState)
    (m : AppMessage) (now : Int)
    (ht : m.message.ptype = PayloadType.wbDraw)
    (hu : msgUid m ≠ st.currentUserId)
    (hcv : st.canvas = false ∨ st.ctx = false) :
    handleMessage env st m = st ∧
    redrawCanvasOps now (handleMessage env st m) = redrawCanvasOps now st := by
  have hmain : handleMessage env st m = st := by
    unfold handleMessage dispatchMessage updateOwnName
    rcases hcv with h | h <;> simp [ht, hu, h]
  exact ⟨hmain, by rw [hmain]⟩

/-- C10 witness: the partial-delivery envelope received in the closed
state. -/
theorem c10_draw_dropped_when_closed_witness :
    (drawRemoteMsg1.message.ptype = PayloadType.wbDraw ∧
     msgUid drawRemoteMsg1 ≠ closedState.currentUserId ∧
     (closedState.canvas = false ∨ closedState.ctx = false)) ∧
    (handleMessage ⟨true, true⟩ closedState drawRemoteMsg1 = closedState ∧
     redrawCanvasOps 5000
         (handleMessage ⟨true, true⟩ closedState drawRemoteMsg1) =
       redrawCanvasOps 5000 closedState) :=
  ⟨⟨rfl, by decide, Or.inl rfl⟩,
   c10_draw_dropped_when_closed ⟨true, true⟩ closedState drawRemoteMsg1
     5000 rfl (by decide) (Or.inl rfl)⟩

end Whiteboard
